import Mathlib

/-!
# Verification of the Hop-On SG bus tracker core logic

A shallow embedding of the core logic of the `hop_on_sg_tracker` repository:
the landing-page stop filtering/sorting (`src/src/components/Landingpage.jsx`),
the haversine distance computation, the LTA arrival-data normalization
(`parseBusArrivalData` and its helpers), and the dashboard screen's
fetch-result/state handling (`DashboardPage` in `src/src/App.jsx`).

Modelling conventions:
* JavaScript numbers used as exact data (distance keys carried on stops) are
  modelled as rationals `ℚ`; the trigonometric haversine computation is
  modelled over the reals `ℝ`.
* Millisecond timestamps (`Date` values) are modelled as `Int`; a missing or
  empty `EstimatedArrival` string is modelled as `none`.
* JavaScript `null` in data positions is `Option.none`.
* The stable `Array.prototype.sort` (stability is guaranteed by the ECMAScript
  specification) is modelled by a structurally recursive stable insertion
  sort, `stableSort`, proved below to sort and to be stable.
* The locale-sensitive `String.prototype.localeCompare` is kept as an explicit
  parameter `lc : String → String → Int` of the sorting model, since its
  result is host-environment dependent.
-/

namespace HopOnSG

/-! ## Stop catalog data model (Landingpage.jsx)

A stop row that survived CSV loading, augmented with its computed distance
key `distanceValue` (kilometers, as used by the distance comparator). -/

structure RankedStop where
  code : String
  name : String
  road : String
  distanceValue : ℚ
deriving DecidableEq, Repr

/-! ## JavaScript string helpers

`jsToLower` models `String.prototype.toLowerCase`, `jsIncludes` models
`String.prototype.includes` (substring containment, not prefix-only). -/

def jsToLower (s : String) : String := ⟨s.data.map Char.toLower⟩

def jsIncludes (hay needle : String) : Bool :=
  hay.data.tails.any (needle.data.isPrefixOf ·)

/-! ## Filtering (Landingpage.jsx, filter/search effect, lines 212-233)

The effect lowers the query once and keeps the stops whose name, code or
road contains it; an empty query (falsy in JS) skips filtering. -/

def matchesQuery (query : String) (stop : RankedStop) : Bool :=
  jsIncludes (jsToLower stop.name) query ||
  jsIncludes (jsToLower stop.code) query ||
  jsIncludes (jsToLower stop.road) query

def filterStops (searchQuery : String) (stops : List RankedStop) : List RankedStop :=
  if searchQuery = "" then stops
  else stops.filter (matchesQuery (jsToLower searchQuery))

/-! ## Stable sorting

`stableSort le` is a stable insertion sort: the model of the ECMAScript
stable `Array.prototype.sort` with a consistent comparator. -/

def stableInsert (le : α → α → Bool) (a : α) : List α → List α
  | [] => [a]
  | b :: l => if le a b then a :: b :: l else b :: stableInsert le a l

def stableSort (le : α → α → Bool) : List α → List α
  | [] => []
  | a :: l => stableInsert le a (stableSort le l)

/-- The two sort modes offered by the landing page (`sortBy` state). -/
inductive SortMode where
  | distance : SortMode
  | name : SortMode
deriving DecidableEq, Repr

/-- The sort step of the filter/sort effect.  Mode `distance` uses the
comparator `(a, b) => a.distanceValue - b.distanceValue`; mode `name` uses
`(a, b) => a.name.localeCompare(b.name)`, where `lc` stands for the
environment-provided `localeCompare`. -/
def sortStops (lc : String → String → Int) (mode : SortMode)
    (stops : List RankedStop) : List RankedStop :=
  match mode with
  | SortMode.distance => stableSort (fun a b => a.distanceValue ≤ b.distanceValue) stops
  | SortMode.name => stableSort (fun a b => lc a.name b.name ≤ 0) stops

/-! ## Rendering caps (Landingpage.jsx lines 393-398 and 419)

The list view renders `filteredStops.slice(0, 20)` while the counter badge
shows `filteredStops.length`. -/

def displayedStops (filteredStops : List RankedStop) : List RankedStop :=
  filteredStops.take 20

def stopsFoundCount (filteredStops : List RankedStop) : Nat :=
  filteredStops.length

/-! ## Haversine distance (Landingpage.jsx lines 36-61)

Modelled over the reals.  The JS function returns `{value, unit}` where the
unit tag is meters for distances under one kilometer. -/

noncomputable def toRadians (degrees : ℝ) : ℝ := degrees * (Real.pi / 180)

noncomputable def haversineKm (lat1 lon1 lat2 lon2 : ℝ) : ℝ :=
  let lat1Rad := toRadians lat1
  let lon1Rad := toRadians lon1
  let lat2Rad := toRadians lat2
  let lon2Rad := toRadians lon2
  let dlat := lat2Rad - lat1Rad
  let dlon := lon2Rad - lon1Rad
  let a := Real.sin (dlat / 2) ^ 2 +
    Real.cos lat1Rad * Real.cos lat2Rad * Real.sin (dlon / 2) ^ 2
  let c := 2 * Real.arcsin (Real.sqrt a)
  6371 * c

inductive DistUnit where
  | m : DistUnit
  | km : DistUnit
deriving DecidableEq, Repr

structure DistanceResult where
  value : ℝ
  unit : DistUnit

noncomputable def haversine (lat1 lon1 lat2 lon2 : ℝ) : DistanceResult :=
  let distance := haversineKm lat1 lon1 lat2 lon2
  if distance < 1 then { value := distance * 1000, unit := DistUnit.m }
  else { value := distance, unit := DistUnit.km }

/-! ## LTA API service model (ltaApiService, Landingpage.jsx lines 487-672)

The JSON shapes of the `BusArrival` endpoint and the parsed app format. -/

/-- One of the up-to-three next-bus predictions of a service record.
`EstimatedArrival` is a millisecond timestamp, `none` when the field is
missing or empty; `«Type»` carries the vehicle-type code (JSON field
`Type`). -/
structure NextBusInfo where
  EstimatedArrival : Option Int
  Load : String
  «Type» : String
  Feature : String
  OriginCode : String
  DestinationCode : String
  Monitored : Int
deriving DecidableEq, Repr

structure BusService where
  ServiceNo : String
  Operator : String
  NextBus : NextBusInfo
  NextBus2 : NextBusInfo
  NextBus3 : NextBusInfo
deriving DecidableEq, Repr

structure ApiResponse where
  BusStopCode : String
  Services : List BusService
deriving DecidableEq, Repr

structure RouteStop where
  name : String
  code : String
  status : String
  distance : String
  time : Int
deriving DecidableEq, Repr

/-- The app-format record produced per service by `parseBusArrivalData`. -/
structure Bus where
  number : String
  operator : String
  destination : String
  arrivals : List (Option Int)
  load : String
  type : String
  feature : String
  originCode : String
  destinationCode : String
  monitored : Bool
  route : List RouteStop
deriving DecidableEq, Repr

/-- The value returned by `parseBusArrivalData`; the ISO `timestamp` string
is modelled as the millisecond clock reading. -/
structure ParsedArrival where
  busStopCode : String
  buses : List Bus
  timestamp : Int
deriving DecidableEq, Repr

/-- `calculateMinutesUntilArrival`: missing timestamp gives `null`; otherwise
the difference to `now` is floored to whole minutes and clamped at zero. -/
def calculateMinutesUntilArrival (now : Int) (estimatedArrival : Option Int) :
    Option Int :=
  match estimatedArrival with
  | none => none
  | some arrivalTime =>
    let diffMs := arrivalTime - now
    let diffMinutes := Int.fdiv diffMs 60000
    some (if diffMinutes ≥ 0 then diffMinutes else 0)

/-- `mapLoadStatus`: the fixed occupancy lookup table with `unknown`
fallback. -/
def mapLoadStatus (load : String) : String :=
  if load = "SEA" then "low"
  else if load = "SDA" then "medium"
  else if load = "LSD" then "high"
  else "unknown"

/-- `mapBusType`: the fixed vehicle-type lookup table with `Unknown`
fallback. -/
def mapBusType (type : String) : String :=
  if type = "SD" then "Single Deck"
  else if type = "DD" then "Double Deck"
  else if type = "BD" then "Bendy"
  else "Unknown"

/-- `getDestinationName`: the hardcoded destination table with the
`Stop {code}` placeholder fallback. -/
def getDestinationName (destinationCode : String) : String :=
  if destinationCode = "44009" then "Choa Chu Kang Int"
  else if destinationCode = "44531" then "Yew Tee MRT"
  else if destinationCode = "03211" then "Orchard"
  else if destinationCode = "01012" then "City Hall"
  else "Stop " ++ destinationCode

/-- `generateMockRoute`: the hardcoded placeholder route. -/
def generateMockRoute (currentStopCode destinationCode : String) :
    List RouteStop :=
  [ { name := "Current Stop", code := currentStopCode, status := "current",
      distance := "0 km", time := 0 },
    { name := "Next Stop 1", code := "XXXXX", status := "upcoming",
      distance := "0.5 km", time := 3 },
    { name := "Next Stop 2", code := "XXXXX", status := "upcoming",
      distance := "1.2 km", time := 7 },
    { name := "Destination", code := destinationCode, status := "upcoming",
      distance := "5.0 km", time := 20 } ]

/-- The per-service body of the `Services.map` inside
`parseBusArrivalData`. -/
def parseService (now : Int) (busStopCode : String) (service : BusService) :
    Bus :=
  let nextBuses := [service.NextBus, service.NextBus2, service.NextBus3]
  let arrivals :=
    (nextBuses.map
        (fun bus => calculateMinutesUntilArrival now bus.EstimatedArrival)).filter
      (fun time => time.isSome)
  let firstBus := service.NextBus
  { number := service.ServiceNo
    operator := service.Operator
    destination := getDestinationName firstBus.DestinationCode
    arrivals := if arrivals.length > 0 then arrivals else [none, none, none]
    load := mapLoadStatus firstBus.Load
    type := mapBusType firstBus.«Type»
    feature := firstBus.Feature
    originCode := firstBus.OriginCode
    destinationCode := firstBus.DestinationCode
    monitored := firstBus.Monitored == 1
    route := generateMockRoute busStopCode firstBus.DestinationCode }

/-- `parseBusArrivalData`: maps every service record to the app format and
keeps the buses with at least one non-null arrival. -/
def parseBusArrivalData (now : Int) (apiResponse : ApiResponse) :
    ParsedArrival :=
  let buses :=
    (apiResponse.Services.map (parseService now apiResponse.BusStopCode)).filter
      (fun bus => bus.arrivals.any (fun time => time.isSome))
  { busStopCode := apiResponse.BusStopCode
    buses := buses
    timestamp := now }

/-- The three per-slot ETA values of a service record, in slot order:
the image of `[NextBus, NextBus2, NextBus3]` under
`calculateMinutesUntilArrival` before any filtering. -/
def slotETAs (now : Int) (service : BusService) : List (Option Int) :=
  [service.NextBus, service.NextBus2, service.NextBus3].map
    (fun bus => calculateMinutesUntilArrival now bus.EstimatedArrival)

/-! ## Fetcher control flow (`fetchBusArrivals`)

The network is modelled as a function from stop code to HTTP response; the
second component of the result counts the HTTP requests issued. -/

/-- The failure kinds thrown by `fetchBusArrivals`. -/
inductive FetchError where
  | credentialMissing : String → FetchError
  | upstreamError : Nat → String → FetchError
deriving DecidableEq, Repr

structure NetResponse where
  ok : Bool
  status : Nat
  statusText : String
  body : ApiResponse
deriving DecidableEq, Repr

/-- `!API_KEY` in JS: an absent or empty key is falsy. -/
def jsFalsyKey (apiKey : Option String) : Bool :=
  match apiKey with
  | none => true
  | some s => s = ""

/-- `fetchBusArrivals`: rejects with the credential-missing error before
issuing any request when the key is falsy; otherwise issues exactly one GET
and either surfaces a non-2xx status as an upstream error or parses the
body. -/
def fetchBusArrivals (apiKey : Option String) (now : Int)
    (net : String → NetResponse) (busStopCode : String) :
    Except FetchError ParsedArrival × Nat :=
  if jsFalsyKey apiKey then
    (Except.error (FetchError.credentialMissing
      "LTA API Key not configured. Please set VITE_LTA_API_KEY in .env file"), 0)
  else
    let response := net busStopCode
    if !response.ok then
      (Except.error (FetchError.upstreamError response.status response.statusText), 1)
    else
      (Except.ok (parseBusArrivalData now response.body), 1)

/-- `isApiKeyConfigured` from the service module. -/
def isApiKeyConfigured (apiKey : Option String) : Bool :=
  match apiKey with
  | none => false
  | some s => !(s = "" || s = "your_api_key_here")

/-! ## Dashboard screen state (DashboardPage in `src/src/App.jsx`)

Only the state the fetch handler and the polling condition touch. -/

structure DashboardState where
  buses : List Bus
  loading : Bool
  error : Option String
  lastUpdated : Option Int
deriving DecidableEq, Repr

/-- The outcome of the awaited `fetchBusArrivals` call as seen by
`loadBusArrivals`: either the parsed data or a thrown error message. -/
inductive FetchAttempt where
  | success : ParsedArrival → FetchAttempt
  | failure : String → FetchAttempt
deriving DecidableEq, Repr

def apiKeyMissingMsg : String :=
  "LTA API key not configured. Please add REACT_APP_LTA_API_KEY to your .env file."

def noBusesMsg : String := "No buses currently serving this stop."

/-- `loadBusArrivals` (App.jsx lines 105-129): the state transition applied
when one fetch attempt completes.  An empty `buses` payload sets the same
`error` state used for hard failures. -/
def loadBusArrivals (apiKeyConfigured : Bool) (now : Int)
    (attempt : FetchAttempt) (st : DashboardState) : DashboardState :=
  if !apiKeyConfigured then
    { st with error := some apiKeyMissingMsg, loading := false }
  else
    match attempt with
    | FetchAttempt.failure msg =>
      { st with error := some msg, loading := false }
    | FetchAttempt.success data =>
      if data.buses.length = 0 then
        { st with error := some noBusesMsg, loading := false }
      else
        { st with
            error := none
            buses := data.buses
            lastUpdated := some now
            loading := false }

/-- The guard of the 30-second auto-refresh interval (App.jsx lines
137-145): a tick re-fetches only when not loading and no error is set. -/
def autoRefreshTicks (st : DashboardState) : Bool :=
  !st.loading && st.error.isNone

/-- The condition rendering the hard-error screen (App.jsx line 195):
`error && buses.length === 0`. -/
def showsErrorScreen (st : DashboardState) : Bool :=
  st.error.isSome && st.buses.length == 0

/-! ## Concrete example inputs

Sample values used to evaluate the model on explicit data. -/

/-- A next-bus slot with no estimated arrival timestamp. -/
def nbMissing : NextBusInfo :=
  { EstimatedArrival := none, Load := "", «Type» := "", Feature := "",
    OriginCode := "", DestinationCode := "", Monitored := 0 }

/-- A next-bus slot whose bus arrives at millisecond timestamp `t`. -/
def nbAt (t : Int) : NextBusInfo :=
  { EstimatedArrival := some t, Load := "SEA", «Type» := "SD", Feature := "WAB",
    OriginCode := "44009", DestinationCode := "44009", Monitored := 1 }

/-- A service whose first and third slots lack timestamps while the second
bus arrives two minutes after clock reading `0`. -/
def svcSecondSlotOnly : BusService :=
  { ServiceNo := "985", Operator := "SMRT", NextBus := nbMissing,
    NextBus2 := nbAt 120000, NextBus3 := nbMissing }

def respSecondSlotOnly : ApiResponse :=
  { BusStopCode := "44411", Services := [svcSecondSlotOnly] }

/-- A service all three of whose slots lack timestamps. -/
def svcAllMissing : BusService :=
  { ServiceNo := "300", Operator := "SBST", NextBus := nbMissing,
    NextBus2 := nbMissing, NextBus3 := nbMissing }

def respAllMissing : ApiResponse :=
  { BusStopCode := "83139", Services := [svcAllMissing] }

/-- A successful fetch payload with zero retained estimates. -/
def emptyArrivalData : ParsedArrival :=
  { busStopCode := "44411", buses := [], timestamp := 0 }

/-- The dashboard state after a previous successful-but-empty session:
no buses, not loading, no error. -/
def initialDashboardState : DashboardState :=
  { buses := [], loading := false, error := none, lastUpdated := none }

/-- A placeholder HTTP response for exercising the fetcher model. -/
def dummyResponse : NetResponse :=
  { ok := true, status := 200, statusText := "OK",
    body := { BusStopCode := "44411", Services := [] } }

/-- A concrete total comparison on strings standing in for a host
`localeCompare` implementation. -/
def lcStd (m n : String) : Int :=
  if m < n then -1 else if n < m then 1 else 0

/-- A sample stop for exercising the display cap. -/
def stopSample : RankedStop :=
  { code := "01012", name := "Sample Stop", road := "Sample Road",
    distanceValue := 1/2 }

/-- A filtered list longer than the display cap. -/
def manyStops : List RankedStop := List.replicate 21 stopSample

/-- Three sample stops, two of which share the same distance key and name,
for exercising the stable sort. -/
def stopsSample : List RankedStop :=
  [ { code := "03211", name := "Orchard Stn", road := "Orchard Rd",
      distanceValue := 2 },
    { code := "01012", name := "City Hall Stn", road := "North Bridge Rd",
      distanceValue := 1 },
    { code := "01013", name := "City Hall Stn", road := "North Bridge Rd",
      distanceValue := 1 } ]

/-! ## Helper lemmas -/

theorem stableInsert_perm (le : α → α → Bool) (a : α) :
    ∀ l : List α, (stableInsert le a l).Perm (a :: l)
  | [] => List.Perm.refl _
  | b :: l => by
    unfold stableInsert
    by_cases h : le a b = true
    · simp [h]
    · simp only [h, if_false, Bool.false_eq_true, if_neg]
      exact ((stableInsert_perm le a l).cons b).trans (List.Perm.swap a b l)

theorem stableSort_perm (le : α → α → Bool) :
    ∀ l : List α, (stableSort le l).Perm l
  | [] => List.Perm.refl _
  | a :: l =>
    (stableInsert_perm le a (stableSort le l)).trans ((stableSort_perm le l).cons a)

theorem mem_stableInsert (le : α → α → Bool) (a x : α) (l : List α) :
    x ∈ stableInsert le a l ↔ x = a ∨ x ∈ l := by
  rw [(stableInsert_perm le a l).mem_iff, List.mem_cons]

theorem pairwise_stableInsert (le : α → α → Bool)
    (htrans : ∀ x y z, le x y = true → le y z = true → le x z = true)
    (htot : ∀ x y, le x y = true ∨ le y x = true) (a : α) :
    ∀ l : List α, l.Pairwise (fun x y => le x y = true) →
      (stableInsert le a l).Pairwise (fun x y => le x y = true)
  | [], _ => by simp [stableInsert]
  | b :: l, h => by
    rcases List.pairwise_cons.mp h with ⟨hb, hl⟩
    unfold stableInsert
    by_cases hab : le a b = true
    · simp only [hab, if_true]
      refine List.pairwise_cons.mpr ⟨?_, h⟩
      intro x hx
      rcases List.mem_cons.mp hx with rfl | hx
      · exact hab
      · exact htrans a b x hab (hb x hx)
    · simp only [hab, Bool.false_eq_true, if_neg, if_false]
      have hba : le b a = true := (htot a b).resolve_left hab
      refine List.pairwise_cons.mpr ⟨?_, pairwise_stableInsert le htrans htot a l hl⟩
      intro x hx
      rcases (mem_stableInsert le a x l).mp hx with rfl | hx
      · exact hba
      · exact hb x hx

theorem pairwise_stableSort (le : α → α → Bool)
    (htrans : ∀ x y z, le x y = true → le y z = true → le x z = true)
    (htot : ∀ x y, le x y = true ∨ le y x = true) :
    ∀ l : List α, (stableSort le l).Pairwise (fun x y => le x y = true)
  | [] => List.Pairwise.nil
  | a :: l =>
    pairwise_stableInsert le htrans htot a (stableSort le l)
      (pairwise_stableSort le htrans htot l)

theorem filter_stableInsert_pos (le : α → α → Bool) (p : α → Bool) (a : α)
    (hpa : p a = true) (hle : ∀ b, p b = true → le a b = true) :
    ∀ l : List α, (stableInsert le a l).filter p = a :: l.filter p
  | [] => by simp [stableInsert, hpa]
  | b :: l => by
    unfold stableInsert
    by_cases hab : le a b = true
    · simp [hab, hpa]
    · have hpb : p b = false := by
        cases hb : p b with
        | false => rfl
        | true => exact absurd (hle b hb) hab
      simp only [hab, Bool.false_eq_true, if_neg, if_false]
      rw [List.filter_cons_of_neg (by simp [hpb]),
        filter_stableInsert_pos le p a hpa hle l,
        List.filter_cons_of_neg (by simp [hpb])]

theorem filter_stableInsert_neg (le : α → α → Bool) (p : α → Bool) (a : α)
    (hpa : p a = false) :
    ∀ l : List α, (stableInsert le a l).filter p = l.filter p
  | [] => by simp [stableInsert, hpa]
  | b :: l => by
    unfold stableInsert
    by_cases hab : le a b = true
    · simp [hab, hpa]
    · simp only [hab, Bool.false_eq_true, if_neg, if_false]
      cases hb : p b with
      | false =>
        rw [List.filter_cons_of_neg (by simp [hb]),
          filter_stableInsert_neg le p a hpa l,
          List.filter_cons_of_neg (by simp [hb])]
      | true =>
        rw [List.filter_cons_of_pos (by simp [hb]),
          filter_stableInsert_neg le p a hpa l,
          List.filter_cons_of_pos (by simp [hb])]

theorem filter_stableSort (le : α → α → Bool) (p : α → Bool)
    (hp : ∀ x y, p x = true → p y = true → le x y = true) :
    ∀ l : List α, (stableSort le l).filter p = l.filter p
  | [] => rfl
  | a :: l => by
    unfold stableSort
    cases hpa : p a with
    | true =>
      rw [filter_stableInsert_pos le p a hpa (fun b hb => hp a b hpa hb),
        filter_stableSort le p hp l, List.filter_cons_of_pos (by simp [hpa])]
    | false =>
      rw [filter_stableInsert_neg le p a hpa,
        filter_stableSort le p hp l, List.filter_cons_of_neg (by simp [hpa])]

theorem slotETAs_length (now : Int) (s : BusService) :
    (slotETAs now s).length = 3 := rfl

theorem parseService_arrivals (now : Int) (code : String) (s : BusService) :
    (parseService now code s).arrivals =
      if ((slotETAs now s).filter Option.isSome).length > 0
      then (slotETAs now s).filter Option.isSome
      else [none, none, none] := rfl

theorem parseService_any_isSome (now : Int) (code : String) (s : BusService) :
    (parseService now code s).arrivals.any Option.isSome =
      (slotETAs now s).any Option.isSome := by
  rw [parseService_arrivals]
  by_cases h : ((slotETAs now s).filter Option.isSome).length > 0
  · rw [if_pos h]
    have hne : (slotETAs now s).filter Option.isSome ≠ [] :=
      List.ne_nil_of_length_pos h
    rcases List.exists_mem_of_ne_nil _ hne with ⟨x, hx⟩
    have hpx : Option.isSome x = true := List.of_mem_filter hx
    have hxL : x ∈ slotETAs now s := List.mem_of_mem_filter hx
    rw [List.any_eq_true.mpr ⟨x, hx, hpx⟩, List.any_eq_true.mpr ⟨x, hxL, hpx⟩]
  · rw [if_neg h]
    have hnil : (slotETAs now s).filter Option.isSome = [] :=
      List.eq_nil_of_length_eq_zero (by omega)
    have hall : ∀ x ∈ slotETAs now s, ¬ Option.isSome x = true :=
      List.filter_eq_nil_iff.mp hnil
    have h1 : ([none, none, none] : List (Option Int)).any Option.isSome = false := rfl
    rw [h1]
    symm
    rw [List.any_eq_false]
    exact hall

theorem parseBusArrivalData_buses (now : Int) (resp : ApiResponse) :
    (parseBusArrivalData now resp).buses =
      (resp.Services.filter (fun s => (slotETAs now s).any Option.isSome)).map
        (parseService now resp.BusStopCode) := by
  show (resp.Services.map (parseService now resp.BusStopCode)).filter
      (fun bus => bus.arrivals.any (fun time => time.isSome)) = _
  rw [List.filter_map]
  congr 1
  apply List.filter_congr
  intro s _
  exact parseService_any_isSome now resp.BusStopCode s

theorem parseService_arrivals_of_any (now : Int) (code : String) (s : BusService)
    (h : (slotETAs now s).any Option.isSome = true) :
    (parseService now code s).arrivals = (slotETAs now s).filter Option.isSome := by
  rw [parseService_arrivals]
  rcases List.any_eq_true.mp h with ⟨x, hxL, hpx⟩
  exact if_pos (List.length_pos.mpr (List.ne_nil_of_mem (List.mem_filter.mpr ⟨hxL, hpx⟩)))

theorem sin_half_sub_sq (x y : ℝ) :
    Real.sin ((x - y) / 2) ^ 2 = Real.sin ((y - x) / 2) ^ 2 := by
  rw [show (x - y) / 2 = -((y - x) / 2) by ring, Real.sin_neg]
  ring

theorem haversineKm_symm (lat1 lon1 lat2 lon2 : ℝ) :
    haversineKm lat1 lon1 lat2 lon2 = haversineKm lat2 lon2 lat1 lon1 := by
  unfold haversineKm
  dsimp only
  rw [sin_half_sub_sq (toRadians lat2) (toRadians lat1),
    sin_half_sub_sq (toRadians lon2) (toRadians lon1),
    mul_comm (Real.cos (toRadians lat1)) (Real.cos (toRadians lat2))]

theorem lcStd_le_iff (m n : String) : lcStd m n ≤ 0 ↔ m ≤ n := by
  unfold lcStd
  split_ifs with h1 h2
  · simp [le_of_lt h1]
  · simp [not_le.mpr h2]
  · have : m = n := le_antisymm (not_lt.mp h2) (not_lt.mp h1)
    simp [this]

theorem lcStd_total (m n : String) : lcStd m n ≤ 0 ∨ lcStd n m ≤ 0 := by
  rcases le_total m n with h | h
  · exact Or.inl ((lcStd_le_iff m n).mpr h)
  · exact Or.inr ((lcStd_le_iff n m).mpr h)

theorem lcStd_trans (m n k : String) (h1 : lcStd m n ≤ 0) (h2 : lcStd n k ≤ 0) :
    lcStd m k ≤ 0 :=
  (lcStd_le_iff m k).mpr (le_trans ((lcStd_le_iff m n).mp h1) ((lcStd_le_iff n k).mp h2))

/-! ## Claim theorems -/

/-- Claim C1, counterexample: the claim that every retained estimate's
`etaMinutesList` has exactly 3 entries with nulls kept in slot position is
false.  With the first and third slots missing and the second bus two
minutes away, the retained estimate's list is `[some 2]` — length 1, the
null slots having been filtered out rather than preserved. -/
theorem slot_positions_not_preserved_cex :
    ¬ ∀ b ∈ (parseBusArrivalData 0 respSecondSlotOnly).buses,
      b.arrivals.length = 3 := by
  decide

/-- Claim C1, amended: each retained estimate's arrival list is the list of
non-null per-slot ETAs in slot order with the null slots removed (so its
length is between 1 and 3, and every remaining entry is non-null); slot
positions are not preserved. -/
theorem retained_arrivals_compacted (now : Int) (resp : ApiResponse) :
    ∀ b ∈ (parseBusArrivalData now resp).buses,
      (∃ s ∈ resp.Services, b = parseService now resp.BusStopCode s ∧
        b.arrivals = (slotETAs now s).filter Option.isSome) ∧
      b.arrivals.all Option.isSome = true ∧
      1 ≤ b.arrivals.length ∧ b.arrivals.length ≤ 3 := by
  intro b hb
  rw [parseBusArrivalData_buses] at hb
  rcases List.mem_map.mp hb with ⟨s, hs, rfl⟩
  have hsS : s ∈ resp.Services := (List.mem_filter.mp hs).1
  have hany : (slotETAs now s).any Option.isSome = true := (List.mem_filter.mp hs).2
  have harr := parseService_arrivals_of_any now resp.BusStopCode s hany
  refine ⟨⟨s, hsS, rfl, harr⟩, ?_, ?_, ?_⟩
  · rw [harr, List.all_eq_true]
    intro x hx
    exact List.of_mem_filter hx
  · rw [harr]
    rcases List.any_eq_true.mp hany with ⟨x, hxL, hpx⟩
    exact List.length_pos.mpr (List.ne_nil_of_mem (List.mem_filter.mpr ⟨hxL, hpx⟩))
  · rw [harr]
    calc ((slotETAs now s).filter Option.isSome).length
        ≤ (slotETAs now s).length := List.length_filter_le _ _
      _ = 3 := slotETAs_length now s

/-- Claim C1, witness: the amended statement instantiated on the service
whose second slot alone has a timestamp. -/
theorem retained_arrivals_compacted_witness :
    (parseService 0 "44411" svcSecondSlotOnly).arrivals.all Option.isSome = true ∧
    1 ≤ (parseService 0 "44411" svcSecondSlotOnly).arrivals.length ∧
    (parseService 0 "44411" svcSecondSlotOnly).arrivals.length ≤ 3 :=
  (retained_arrivals_compacted 0 respSecondSlotOnly
    (parseService 0 "44411" svcSecondSlotOnly) (by decide)).2

/-- Claim C2, counterexample: the claim that a fetch yielding zero estimates
is reported as a distinct empty-success state and does not suspend polling
is false.  A successful fetch with an empty bus list sets the screen's
`error` state, the 30-second auto-refresh guard then evaluates to false,
and the hard-error screen condition holds. -/
theorem empty_result_is_error_state_cex :
    (loadBusArrivals true 0 (FetchAttempt.success emptyArrivalData)
        initialDashboardState).error = some noBusesMsg ∧
    autoRefreshTicks (loadBusArrivals true 0 (FetchAttempt.success emptyArrivalData)
        initialDashboardState) = false ∧
    showsErrorScreen (loadBusArrivals true 0 (FetchAttempt.success emptyArrivalData)
        initialDashboardState) = true := by
  decide

/-- Claim C2, amended: a fetch whose normalization yields zero estimates is
reported through the same `error` state used for hard failures (with the
no-buses message); while that state holds, the 30-second auto-refresh does
not fire, and a screen with no previously shown buses renders the
hard-error view. -/
theorem empty_result_suspends_polling (key : Bool) (now : Int)
    (data : ParsedArrival) (st : DashboardState) (hkey : key = true)
    (hempty : data.buses = []) (hstb : st.buses = []) :
    (loadBusArrivals key now (FetchAttempt.success data) st).error = some noBusesMsg ∧
    autoRefreshTicks (loadBusArrivals key now (FetchAttempt.success data) st) = false ∧
    showsErrorScreen (loadBusArrivals key now (FetchAttempt.success data) st) = true := by
  subst hkey
  have hlen : data.buses.length = 0 := by rw [hempty]; rfl
  unfold loadBusArrivals
  simp only [Bool.not_true, Bool.false_eq_true, if_neg, if_false, hlen, if_pos rfl]
  refine ⟨rfl, ?_, ?_⟩
  · rfl
  · unfold showsErrorScreen
    simp [hstb]

/-- Claim C2, witness: the amended statement instantiated on the empty
payload and the idle dashboard state. -/
theorem empty_result_suspends_polling_witness :
    (loadBusArrivals true 0 (FetchAttempt.success emptyArrivalData)
        initialDashboardState).error = some noBusesMsg :=
  (empty_result_suspends_polling true 0 emptyArrivalData initialDashboardState
    rfl rfl rfl).1

/-- Claim C3: for a present arrival timestamp the ETA is the floor of the
millisecond difference in minutes, clamped at zero: the result is always
`some (max (fdiv (arrival - now) 60000) 0)`; in particular a timestamp 90
seconds ahead gives 1 and any past timestamp gives 0 (never negative,
never dropped). -/
theorem eta_floor_clamped (now arrival : Int) :
    calculateMinutesUntilArrival now (some arrival) =
      some (max (Int.fdiv (arrival - now) 60000) 0) ∧
    (arrival - now = 90000 →
      calculateMinutesUntilArrival now (some arrival) = some 1) ∧
    (arrival < now →
      calculateMinutesUntilArrival now (some arrival) = some 0) := by
  have hfd : Int.fdiv (arrival - now) 60000 = (arrival - now) / 60000 :=
    Int.fdiv_eq_ediv _ (by norm_num)
  have hbase : calculateMinutesUntilArrival now (some arrival) =
      some (max (Int.fdiv (arrival - now) 60000) 0) := by
    show some (if Int.fdiv (arrival - now) 60000 ≥ 0
        then Int.fdiv (arrival - now) 60000 else 0) = _
    congr 1
    rw [hfd]
    split_ifs with h <;> omega
  refine ⟨hbase, ?_, ?_⟩
  · intro h
    rw [hbase, h]
    decide
  · intro h
    rw [hbase]
    congr 1
    rw [hfd]
    omega

/-- Claim C3, witness: 90 seconds ahead gives 1; a past timestamp gives 0. -/
theorem eta_floor_clamped_witness :
    calculateMinutesUntilArrival 0 (some 90000) = some 1 ∧
    calculateMinutesUntilArrival 100000 (some 40000) = some 0 :=
  ⟨(eta_floor_clamped 0 90000).2.1 (by decide),
   (eta_floor_clamped 100000 40000).2.2 (by decide)⟩

/-- Claim C4: a service all three of whose next-bus slots lack timestamps
is absent from the returned bus list, and every retained estimate has at
least one non-null ETA entry. -/
theorem all_null_service_excluded (now : Int) (resp : ApiResponse) :
    (∀ s ∈ resp.Services, (slotETAs now s).all Option.isNone = true →
      parseService now resp.BusStopCode s ∉ (parseBusArrivalData now resp).buses) ∧
    ∀ b ∈ (parseBusArrivalData now resp).buses,
      b.arrivals.any Option.isSome = true := by
  have hret : ∀ b ∈ (parseBusArrivalData now resp).buses,
      b.arrivals.any Option.isSome = true := by
    intro b hb
    rw [parseBusArrivalData_buses] at hb
    rcases List.mem_map.mp hb with ⟨s, hs, rfl⟩
    rw [parseService_any_isSome]
    exact (List.mem_filter.mp hs).2
  refine ⟨?_, hret⟩
  intro s hsS hnone hmem
  have hany := hret _ hmem
  rw [parseService_any_isSome] at hany
  rcases List.any_eq_true.mp hany with ⟨x, hxL, hpx⟩
  have hnx : Option.isNone x = true := List.all_eq_true.mp hnone x hxL
  cases x with
  | none => simp at hpx
  | some v => simp at hnx

/-- Claim C4, witness: the all-slots-missing service is excluded from its
response's bus list. -/
theorem all_null_service_excluded_witness :
    parseService 0 "83139" svcAllMissing ∉
      (parseBusArrivalData 0 respAllMissing).buses :=
  (all_null_service_excluded 0 respAllMissing).1 svcAllMissing (by decide) (by decide)

/-- Claim C5: with any total, transitive locale comparison, distance mode
sorts ascending by the computed distance key and name mode sorts ascending
by the locale comparison; both modes permute the input and are stable —
the elements of each equal-key class keep their original relative order
(their filtered subsequence is unchanged). -/
theorem sort_modes_ordered_and_stable (lc : String → String → Int)
    (hlcTotal : ∀ m n, lc m n ≤ 0 ∨ lc n m ≤ 0)
    (hlcTrans : ∀ m n k, lc m n ≤ 0 → lc n k ≤ 0 → lc m k ≤ 0)
    (stops : List RankedStop) :
    ((sortStops lc SortMode.distance stops).Pairwise
        (fun a b => a.distanceValue ≤ b.distanceValue) ∧
      (sortStops lc SortMode.distance stops).Perm stops ∧
      ∀ q : ℚ, (sortStops lc SortMode.distance stops).filter
          (fun s => decide (s.distanceValue = q)) =
        stops.filter (fun s => decide (s.distanceValue = q))) ∧
    ((sortStops lc SortMode.name stops).Pairwise
        (fun a b => lc a.name b.name ≤ 0) ∧
      (sortStops lc SortMode.name stops).Perm stops ∧
      ∀ x : String, (sortStops lc SortMode.name stops).filter
          (fun s => decide (lc s.name x ≤ 0) && decide (lc x s.name ≤ 0)) =
        stops.filter
          (fun s => decide (lc s.name x ≤ 0) && decide (lc x s.name ≤ 0))) := by
  constructor
  · have htrans : ∀ x y z : RankedStop,
        decide (x.distanceValue ≤ y.distanceValue) = true →
        decide (y.distanceValue ≤ z.distanceValue) = true →
        decide (x.distanceValue ≤ z.distanceValue) = true := fun x y z hxy hyz =>
      decide_eq_true (le_trans (of_decide_eq_true hxy) (of_decide_eq_true hyz))
    have htot : ∀ x y : RankedStop,
        decide (x.distanceValue ≤ y.distanceValue) = true ∨
        decide (y.distanceValue ≤ x.distanceValue) = true := fun x y =>
      (le_total x.distanceValue y.distanceValue).imp decide_eq_true decide_eq_true
    refine ⟨?_, stableSort_perm _ stops, ?_⟩
    · exact (pairwise_stableSort _ htrans htot stops).imp
        (fun h => of_decide_eq_true h)
    · intro q
      exact filter_stableSort _ _
        (fun x y hx hy => decide_eq_true (by
          rw [of_decide_eq_true hx, of_decide_eq_true hy])) stops
  · have htrans : ∀ x y z : RankedStop,
        decide (lc x.name y.name ≤ 0) = true →
        decide (lc y.name z.name ≤ 0) = true →
        decide (lc x.name z.name ≤ 0) = true := fun x y z hxy hyz =>
      decide_eq_true (hlcTrans _ _ _ (of_decide_eq_true hxy) (of_decide_eq_true hyz))
    have htot : ∀ x y : RankedStop,
        decide (lc x.name y.name ≤ 0) = true ∨
        decide (lc y.name x.name ≤ 0) = true := fun x y =>
      (hlcTotal x.name y.name).imp decide_eq_true decide_eq_true
    refine ⟨?_, stableSort_perm _ stops, ?_⟩
    · exact (pairwise_stableSort _ htrans htot stops).imp
        (fun h => of_decide_eq_true h)
    · intro x
      refine filter_stableSort _ _ (fun a b ha hb => decide_eq_true ?_) stops
      have ha' := Bool.and_eq_true_iff.mp ha
      have hb' := Bool.and_eq_true_iff.mp hb
      exact hlcTrans _ _ _ (of_decide_eq_true ha'.1) (of_decide_eq_true hb'.2)

/-- Claim C5, witness: the sort contract instantiated with the concrete
comparison `lcStd` on a three-stop list containing an equal-key pair. -/
theorem sort_modes_ordered_and_stable_witness :
    (sortStops lcStd SortMode.distance stopsSample).Perm stopsSample ∧
    (sortStops lcStd SortMode.name stopsSample).Pairwise
      (fun a b => lcStd a.name b.name ≤ 0) :=
  ⟨(sort_modes_ordered_and_stable lcStd lcStd_total lcStd_trans stopsSample).1.2.1,
   (sort_modes_ordered_and_stable lcStd lcStd_total lcStd_trans stopsSample).2.1⟩

/-- Claim C6: filtering is idempotent — filtering an already-filtered list
with the same query yields the same list — and the empty query yields the
unfiltered list. -/
theorem filtering_idempotent (q : String) (stops : List RankedStop) :
    filterStops q (filterStops q stops) = filterStops q stops ∧
    filterStops "" stops = stops := by
  constructor
  · by_cases hq : q = ""
    · subst hq
      simp [filterStops]
    · unfold filterStops
      rw [if_neg hq, if_neg hq, List.filter_filter]
      apply List.filter_congr
      intro s _
      simp
  · simp [filterStops]

/-- Claim C7: with a falsy (absent or empty) credential, `fetchBusArrivals`
rejects with the credential-missing failure and issues zero HTTP requests,
for every network behaviour and every stop code. -/
theorem credential_missing_no_request (apiKey : Option String) (now : Int)
    (net : String → NetResponse) (busStopCode : String)
    (h : jsFalsyKey apiKey = true) :
    fetchBusArrivals apiKey now net busStopCode =
      (Except.error (FetchError.credentialMissing
        "LTA API Key not configured. Please set VITE_LTA_API_KEY in .env file"), 0) := by
  unfold fetchBusArrivals
  rw [if_pos h]

/-- Claim C7, witness: the absent key rejects without a request on a
concrete stop code. -/
theorem credential_missing_no_request_witness :
    fetchBusArrivals none 0 (fun _ => dummyResponse) "44411" =
      (Except.error (FetchError.credentialMissing
        "LTA API Key not configured. Please set VITE_LTA_API_KEY in .env file"), 0) :=
  credential_missing_no_request none 0 (fun _ => dummyResponse) "44411" rfl

/-- Claim C8: the haversine distance is symmetric in its two coordinate
pairs, including the returned unit tag. -/
theorem haversine_symm (lat1 lon1 lat2 lon2 : ℝ) :
    haversine lat1 lon1 lat2 lon2 = haversine lat2 lon2 lat1 lon1 := by
  unfold haversine
  rw [haversineKm_symm]

/-- Claim C9: the landing page renders at most the first 20 stops of the
filtered list (a prefix), while the stops-found counter reports the full
filtered length; when more than 20 stops match, exactly 20 are rendered
and the counter exceeds the rendered count. -/
theorem display_cap_twenty (fs : List RankedStop) :
    (displayedStops fs).length ≤ 20 ∧
    (displayedStops fs).IsPrefix fs ∧
    stopsFoundCount fs = fs.length ∧
    (20 < fs.length →
      (displayedStops fs).length = 20 ∧
      (displayedStops fs).length < stopsFoundCount fs) := by
  refine ⟨?_, List.take_prefix 20 fs, rfl, ?_⟩
  · rw [displayedStops, List.length_take]
    omega
  · intro h
    rw [displayedStops, stopsFoundCount, List.length_take]
    omega

/-- Claim C9, witness: a 21-stop filtered list renders 20 stops while the
counter reports 21. -/
theorem display_cap_twenty_witness :
    (displayedStops manyStops).length = 20 ∧
    (displayedStops manyStops).length < stopsFoundCount manyStops :=
  (display_cap_twenty manyStops).2.2.2 (by decide)

/-- Claim C10: the occupancy, vehicle type, accessibility feature and
destination label of a parsed estimate are functions of `NextBus` alone —
for arbitrary replacements of `NextBus2` and `NextBus3` they equal the
fixed mappings applied to the first bus's codes. -/
theorem first_bus_fields_only (now : Int) (code : String) (s : BusService)
    (nb2 nb3 : NextBusInfo) :
    (parseService now code { s with NextBus2 := nb2, NextBus3 := nb3 }).load
        = mapLoadStatus s.NextBus.Load ∧
    (parseService now code { s with NextBus2 := nb2, NextBus3 := nb3 }).type
        = mapBusType s.NextBus.«Type» ∧
    (parseService now code { s with NextBus2 := nb2, NextBus3 := nb3 }).feature
        = s.NextBus.Feature ∧
    (parseService now code { s with NextBus2 := nb2, NextBus3 := nb3 }).destination
        = getDestinationName s.NextBus.DestinationCode :=
  ⟨rfl, rfl, rfl, rfl⟩

end HopOnSG
